import Mathlib

/-!
Verification of `src/utils/chatbot_assistant.py` (GeneHack AMR chatbot module).

The module is sequential glue code around a remote generative-text API.  The
embedding below models:

* a chat message as a record of `role` and `content` strings;
* JSON-serializable values by the inductive `Json` (numbers are modelled as
  integers: no claim concerns numeric content);
* `json.dumps(v, indent=2)` by the executable serializer `dumps`;
* the remote call `model.generate_content(prompt)` together with the
  `response.text` access as an oracle parameter
  `gen : String → Except String String` (`Except.error e` is a raised
  exception whose `str(e)` is `e`, `Except.ok t` is a reply with text `t`);
* `json.loads` as an oracle parameter `loads : String → Except String Json`
  (`Except.error` is a raised parse exception);
* the module-level credential `GEMINI_API_KEY = os.environ.get(...)` as an
  explicit `apiKey : String` argument; Python truthiness of a string makes
  `not GEMINI_API_KEY` the test `apiKey = ""`.

Each Python function becomes a total Lean function whose `try/except`
structure is the visible `match` on the oracle outcome.
-/

/-- A chat message: `{"role": ..., "content": ...}`. -/
structure Msg where
  role : String
  content : String
deriving Repr, DecidableEq

/-- JSON-serializable values (numbers modelled as integers). -/
inductive Json where
  | null : Json
  | bool : Bool → Json
  | num : Int → Json
  | str : String → Json
  | arr : List Json → Json
  | obj : List (String × Json) → Json
deriving Repr

/-- JSON string escaping, as used by `json.dumps` for the characters that can
occur in this development. -/
def jsonEscapeChar (c : Char) : String :=
  if c = '\\' then "\\\\"
  else if c = '"' then "\\\""
  else if c = '\n' then "\\n"
  else if c = '\t' then "\\t"
  else if c = '\r' then "\\r"
  else String.singleton c

def jsonEscape (s : String) : String :=
  String.join (s.data.map jsonEscapeChar)

/-- `n` spaces of indentation. -/
def pad (n : Nat) : String :=
  String.mk (List.replicate n ' ')

theorem sizeOf_snd_lt_pair (p : String × Json) : sizeOf p.2 < sizeOf p := by
  cases p with
  | mk k v => simp_arith

mutual

/-- Models `json.dumps(v, indent=2)` at indentation level `ind`. -/
def dumpsAt : Nat → Json → String
  | _, Json.null => "null"
  | _, Json.bool true => "true"
  | _, Json.bool false => "false"
  | _, Json.num n => toString n
  | _, Json.str s => "\"" ++ jsonEscape s ++ "\""
  | _, Json.arr [] => "[]"
  | ind, Json.arr (x :: xs) =>
      "[\n" ++ dumpsItems (ind + 2) x xs ++ "\n" ++ pad ind ++ "]"
  | _, Json.obj [] => "\x7b\x7d"
  | ind, Json.obj (kv :: kvs) =>
      "\x7b\n" ++ dumpsPairs (ind + 2) kv kvs ++ "\n" ++ pad ind ++ "\x7d"
termination_by _ v => sizeOf v
decreasing_by
  all_goals simp_wf
  all_goals try simp_arith
  all_goals (have h := sizeOf_snd_lt_pair kv; omega)

def dumpsItems : Nat → Json → List Json → String
  | ind, x, [] => pad ind ++ dumpsAt ind x
  | ind, x, y :: ys => pad ind ++ dumpsAt ind x ++ ",\n" ++ dumpsItems ind y ys
termination_by _ x xs => sizeOf x + sizeOf xs
decreasing_by all_goals (simp_wf <;> simp_arith)

def dumpsPairs : Nat → String × Json → List (String × Json) → String
  | ind, (k, v), [] =>
      pad ind ++ "\"" ++ jsonEscape k ++ "\": " ++ dumpsAt ind v
  | ind, (k, v), p :: ps =>
      pad ind ++ "\"" ++ jsonEscape k ++ "\": " ++ dumpsAt ind v ++ ",\n" ++
        dumpsPairs ind p ps
termination_by _ kv ps => sizeOf kv.2 + sizeOf ps
decreasing_by
  all_goals simp_wf
  all_goals try simp_arith
  all_goals (have h := sizeOf_snd_lt_pair p; omega)

end

/-- Models `json.dumps(v, indent=2)`. -/
def dumps (v : Json) : String :=
  dumpsAt 0 v

/-- Models Python `str.capitalize()`: first character uppercased, the rest
lowercased. -/
def pyCapitalize (s : String) : String :=
  match s.data with
  | [] => ""
  | c :: cs => String.mk (c.toUpper :: cs.map Char.toLower)

/-- The module-level `SYSTEM_PROMPT` constant (a Python triple-quoted string:
it starts and ends with a newline). -/
def SYSTEM_PROMPT : String :=
  "\nYou are GeneHack Assistant, an AI expert in antimicrobial resistance (AMR) genomics.\nYou analyze genetic data and provide insights on:\n1. Gene functions and their role in antimicrobial resistance\n2. Protein structures and their significance\n3. Resistance mechanisms for different antibiotics\n4. Interpretation of AMR analysis results\n5. Potential research directions and clinical implications\n\nCurrent analysis data will be provided in JSON format. Use this data when answering questions.\nKeep your responses scientifically accurate but understandable to researchers and healthcare professionals.\nIf you're unsure about something, acknowledge the limitations rather than making up information.\n\nFor any clinical advice, emphasize that your suggestions are for research purposes only and should be \nvalidated by proper clinical testing and medical professionals.\n"

/-- `initialize_chat_history()`: a fresh history holding only the system
message. -/
def initialize_chat_history : List Msg :=
  [{ role := "system", content := SYSTEM_PROMPT }]

/-- The `context_message` dict built inside `add_analysis_context`. -/
def context_message (analysis_data : Json) : Msg :=
  { role := "system",
    content := "Here is the current analysis data:\n```json\n" ++
      dumps analysis_data ++
      "\n```\nUse this information to answer the user's questions." }

/-- `add_analysis_context(chat_history, analysis_data)`:
`[chat_history[0], context_message] + chat_history[1:]` when the history has
more than one entry, else `chat_history + [context_message]`.
`chat_history[0]` is rendered as `take 1` and `chat_history[1:]` as `drop 1`. -/
def add_analysis_context (chat_history : List Msg) (analysis_data : Json) :
    List Msg :=
  if chat_history.length > 1 then
    chat_history.take 1 ++ [context_message analysis_data] ++
      chat_history.drop 1
  else
    chat_history ++ [context_message analysis_data]

/-- The dict `{"response": ..., "chat_history": ...}` returned by
`chat_with_assistant`. -/
structure ChatResult where
  response : String
  chat_history : List Msg
deriving Repr, DecidableEq

/-- The flattening `"\n".join(f"{msg['role'].capitalize()}: {msg['content']}"
for msg in chat_history)` built inside `chat_with_assistant`. -/
def history_text (msgs : List Msg) : String :=
  String.intercalate "\n"
    (msgs.map (fun msg => pyCapitalize msg.role ++ ": " ++ msg.content))

/-- `chat_with_assistant(chat_history, user_message)`.  The no-key branch
returns before the user message is appended; otherwise the user message is
appended, the flattened history is sent to the model, and the `try/except`
appears as the `match` on the oracle outcome. -/
def chat_with_assistant (apiKey : String)
    (gen : String → Except String String)
    (chat_history : List Msg) (user_message : String) : ChatResult :=
  if apiKey = "" then
    { response := "Error: Gemini API key is not configured. Please add your API key.",
      chat_history := chat_history }
  else
    let hist1 := chat_history ++ [{ role := "user", content := user_message }]
    match gen (history_text hist1) with
    | Except.ok assistant_message =>
        { response := assistant_message,
          chat_history :=
            hist1 ++ [{ role := "assistant", content := assistant_message }] }
    | Except.error e =>
        { response := "Error communicating with Gemini: " ++ e,
          chat_history := hist1 }

/-- The static fallback dict of `generate_analysis_suggestions` (written
twice in the source: the no-key branch and the outer `except` handler return
the identical literal). -/
def fallback_suggestions : Json :=
  Json.obj
    [("suggested_questions", Json.arr
      [Json.str "What are the most common resistance mechanisms in this sample?",
       Json.str "Which antibiotics should be avoided based on this analysis?",
       Json.str "What are the key resistance genes identified?",
       Json.str "How do these genes confer resistance?"]),
     ("research_directions", Json.arr
      [Json.str "Investigate the prevalence of these resistance genes in your region",
       Json.str "Test alternative antibiotics not affected by these mechanisms",
       Json.str "Compare this resistance profile with clinical outcomes"])]

/-- The `suggestion_prompt` f-string built inside
`generate_analysis_suggestions` (the doubled braces of the f-string denote
literal braces in the output). -/
def suggestion_prompt (analysis_data : Json) : String :=
  "\n        Please analyze the following antimicrobial resistance data and generate:\n        1. Five suggested questions a researcher might want to ask about this data\n        2. Three potential research directions based on these results\n\n        Data:\n        ```json\n        " ++
    dumps analysis_data ++
    "\n        ```\n\n        Return your response in JSON format:\n        \x7b\n            \"suggested_questions\": [\"question1\", \"question2\", ...],\n            \"research_directions\": [\"direction1\", \"direction2\", ...]\n        \x7d\n        "

/-- `generate_analysis_suggestions(analysis_data)`.  The outer `try/except`
is the `match` on `gen` (a failure of `generate_content`, or of the
`response.text` access, lands in the static fallback), the inner bare
`except` around `json.loads` is the `match` on `loads`. -/
def generate_analysis_suggestions (apiKey : String)
    (gen : String → Except String String)
    (loads : String → Except String Json) (analysis_data : Json) : Json :=
  if apiKey = "" then
    fallback_suggestions
  else
    match gen (suggestion_prompt analysis_data) with
    | Except.ok text =>
        match loads text with
        | Except.ok suggestions => suggestions
        | Except.error _ =>
            Json.obj [("error", Json.str "Failed to parse Gemini response"),
                      ("raw", Json.str text)]
    | Except.error _ => fallback_suggestions

/-- The `summary_prompt` f-string built inside `summarize_key_findings`. -/
def summary_prompt (analysis_data : Json) : String :=
  "\n        Please analyze the following antimicrobial resistance data and create a concise summary (250 words max)\n        highlighting the key findings, focusing on:\n\n        1. The most significant resistance genes and mechanisms\n        2. Antibiotics that would be most and least effective\n        3. Any unusual or noteworthy patterns\n\n        Data:\n        ```json\n        " ++
    dumps analysis_data ++
    "\n        ```\n        "

/-- `summarize_key_findings(analysis_data)`. -/
def summarize_key_findings (apiKey : String)
    (gen : String → Except String String) (analysis_data : Json) : String :=
  if apiKey = "" then
    "Gemini API key is not configured. Please add your API key."
  else
    match gen (summary_prompt analysis_data) with
    | Except.ok text => text
    | Except.error e => "Error generating summary: " ++ e

/-- Heap-level model for the frame claim about `add_analysis_context`:
Python lists live in a store of addressed lists.  The body of
`add_analysis_context` only reads its argument (`chat_history[0]` and
`chat_history[1:]` are reads, list `+` allocates a fresh list), so the call
reads the list at `chat_history`, allocates the result at a fresh address
and writes no existing address. -/
structure Store where
  lists : List (List Msg)
deriving Repr

/-- `add_analysis_context` at the heap level: returns the new store and the
address of the newly constructed result list. -/
def add_analysis_context_ref (st : Store) (chat_history : Nat)
    (analysis_data : Json) : Store × Nat :=
  let input := st.lists.getD chat_history []
  (⟨st.lists ++ [add_analysis_context input analysis_data]⟩, st.lists.length)

/-- The spec's reading for the flattening of claim C8: the role with its
first letter capitalized (and the rest untouched).  On the well-formed roles
`system`, `user`, `assistant` this agrees with Python `str.capitalize()`. -/
def capFirst (s : String) : String :=
  match s.data with
  | [] => ""
  | c :: cs => String.mk (c.toUpper :: cs)

/-! ## Theorems for the claims -/

theorem pyCapitalize_wf_role (r : String)
    (h : r = "system" ∨ r = "user" ∨ r = "assistant") :
    pyCapitalize r = capFirst r := by
  rcases h with h | h | h <;> subst h <;> decide

/-- C1 as frozen is false on the code: when no API key is configured,
`chat_with_assistant` returns before appending the user message, so the
returned history is the input history unchanged.  At the example input
(history `[system]`, message `What is blaKPC?`) the returned `chat_history`
has length 1, not 2. -/
theorem C1_counterexample :
    (chat_with_assistant "" (fun _ => Except.error "unreachable")
        initialize_chat_history "What is blaKPC?").response =
      "Error: Gemini API key is not configured. Please add your API key." ∧
    (chat_with_assistant "" (fun _ => Except.error "unreachable")
        initialize_chat_history "What is blaKPC?").chat_history =
      initialize_chat_history ∧
    ¬ ((chat_with_assistant "" (fun _ => Except.error "unreachable")
        initialize_chat_history "What is blaKPC?").chat_history.length = 2) := by
  refine ⟨rfl, rfl, ?_⟩
  decide

/-- C1 (amended): for every chat history, user message and remote oracle,
when no API credential is configured `chat_with_assistant` returns the fixed
error string together with the history unchanged, the user message NOT
appended; in particular the example call with history `[system]` and message
`What is blaKPC?` returns a `chat_history` of length 1 (just the system
message). -/
theorem C1_no_key_returns_history_unchanged
    (gen : String → Except String String)
    (chat_history : List Msg) (user_message : String) :
    chat_with_assistant "" gen chat_history user_message =
      { response := "Error: Gemini API key is not configured. Please add your API key.",
        chat_history := chat_history } ∧
    (chat_with_assistant "" gen initialize_chat_history
        "What is blaKPC?").chat_history.length = 1 := by
  exact ⟨rfl, rfl⟩

/-- C2: for every chat history and mapping, `add_analysis_context` appends
the context message when the history has exactly one entry, and for a longer
history inserts it at index 1 (immediately after the first message),
preserving every other entry in its original relative order. -/
theorem C2_context_inserted_after_head (chat_history : List Msg)
    (analysis_data : Json) :
    (chat_history.length = 1 →
      add_analysis_context chat_history analysis_data =
        chat_history ++ [context_message analysis_data]) ∧
    (chat_history.length > 1 →
      add_analysis_context chat_history analysis_data =
        chat_history.insertIdx 1 (context_message analysis_data)) := by
  constructor
  · intro h1
    unfold add_analysis_context
    rw [if_neg]
    omega
  · intro h1
    match chat_history, h1 with
    | a :: b :: t, _ =>
      unfold add_analysis_context
      rw [if_pos (by simp)]
      simp [List.insertIdx]

theorem C2_witness :
    add_analysis_context [{ role := "system", content := "s" }] Json.null =
      [{ role := "system", content := "s" }] ++ [context_message Json.null] ∧
    add_analysis_context
        [{ role := "system", content := "s" },
         { role := "user", content := "u" }] Json.null =
      ([{ role := "system", content := "s" },
        { role := "user", content := "u" }] : List Msg).insertIdx 1
          (context_message Json.null) :=
  ⟨(C2_context_inserted_after_head
      [{ role := "system", content := "s" }] Json.null).1 rfl,
   (C2_context_inserted_after_head
      [{ role := "system", content := "s" },
       { role := "user", content := "u" }] Json.null).2 (by decide)⟩

/-- C3: when a credential is configured and the remote call (or the handling
of its response) raises, `chat_with_assistant` returns the error string
embedding the failure text, and the returned history is the input history
with the just-appended user message as its last element and no assistant
message added. -/
theorem C3_remote_failure_keeps_user_message (apiKey : String)
    (gen : String → Except String String)
    (chat_history : List Msg) (user_message : String) (e : String)
    (hk : ¬ apiKey = "")
    (hg : gen (history_text
        (chat_history ++ [{ role := "user", content := user_message }])) =
      Except.error e) :
    chat_with_assistant apiKey gen chat_history user_message =
      { response := "Error communicating with Gemini: " ++ e,
        chat_history :=
          chat_history ++ [{ role := "user", content := user_message }] } := by
  unfold chat_with_assistant
  rw [if_neg hk]
  simp only [hg]

theorem C3_witness :
    chat_with_assistant "key" (fun _ => Except.error "boom")
        [{ role := "system", content := "s" }] "hi" =
      { response := "Error communicating with Gemini: boom",
        chat_history := [{ role := "system", content := "s" },
                         { role := "user", content := "hi" }] } :=
  C3_remote_failure_keeps_user_message "key" (fun _ => Except.error "boom")
    [{ role := "system", content := "s" }] "hi" "boom" (by decide) rfl

/-- C4: with a credential configured, a remote reply whose text fails to
parse as JSON makes `generate_analysis_suggestions` return the object
carrying the error flag and the raw reply text, while a failure of the
remote call itself makes it return exactly the same static fallback object
as the no-credential path. -/
theorem C4_suggestions_failure_paths (apiKey : String)
    (gen : String → Except String String)
    (loads : String → Except String Json) (analysis_data : Json)
    (hk : ¬ apiKey = "") :
    (∀ text perr, gen (suggestion_prompt analysis_data) = Except.ok text →
      loads text = Except.error perr →
      generate_analysis_suggestions apiKey gen loads analysis_data =
        Json.obj [("error", Json.str "Failed to parse Gemini response"),
                  ("raw", Json.str text)]) ∧
    (∀ e, gen (suggestion_prompt analysis_data) = Except.error e →
      generate_analysis_suggestions apiKey gen loads analysis_data =
        generate_analysis_suggestions "" gen loads analysis_data) := by
  constructor
  · intro text perr hg hl
    unfold generate_analysis_suggestions
    rw [if_neg hk]
    simp only [hg, hl]
  · intro e hg
    unfold generate_analysis_suggestions
    rw [if_neg hk]
    simp only [hg, if_pos]

theorem C4_witness :
    generate_analysis_suggestions "key" (fun _ => Except.ok "not json")
        (fun _ => Except.error "bad") Json.null =
      Json.obj [("error", Json.str "Failed to parse Gemini response"),
                ("raw", Json.str "not json")] ∧
    generate_analysis_suggestions "key" (fun _ => Except.error "down")
        (fun _ => Except.error "bad") Json.null =
      generate_analysis_suggestions "" (fun _ => Except.error "down")
        (fun _ => Except.error "bad") Json.null :=
  ⟨(C4_suggestions_failure_paths "key" (fun _ => Except.ok "not json")
      (fun _ => Except.error "bad") Json.null (by decide)).1
        "not json" "bad" rfl rfl,
   (C4_suggestions_failure_paths "key" (fun _ => Except.error "down")
      (fun _ => Except.error "bad") Json.null (by decide)).2 "down" rfl⟩

/-- C5: for every input and every outcome of the remote and parse oracles,
each of the three request functions returns one of its enumerated
well-formed result values; no oracle outcome escapes to a further case, so
no exception propagates to the caller. -/
theorem C5_every_outcome_well_formed (apiKey : String)
    (gen : String → Except String String)
    (loads : String → Except String Json)
    (chat_history : List Msg) (user_message : String) (d1 d2 : Json) :
    ((chat_with_assistant apiKey gen chat_history user_message =
        { response := "Error: Gemini API key is not configured. Please add your API key.",
          chat_history := chat_history }) ∨
      (∃ t, gen (history_text
          (chat_history ++ [{ role := "user", content := user_message }])) =
            Except.ok t ∧
        chat_with_assistant apiKey gen chat_history user_message =
          { response := t,
            chat_history :=
              chat_history ++ [{ role := "user", content := user_message }] ++
                [{ role := "assistant", content := t }] }) ∨
      (∃ e, gen (history_text
          (chat_history ++ [{ role := "user", content := user_message }])) =
            Except.error e ∧
        chat_with_assistant apiKey gen chat_history user_message =
          { response := "Error communicating with Gemini: " ++ e,
            chat_history :=
              chat_history ++ [{ role := "user", content := user_message }] })) ∧
    ((generate_analysis_suggestions apiKey gen loads d1 =
        fallback_suggestions) ∨
      (∃ t j, gen (suggestion_prompt d1) = Except.ok t ∧
        loads t = Except.ok j ∧
        generate_analysis_suggestions apiKey gen loads d1 = j) ∨
      (∃ t, gen (suggestion_prompt d1) = Except.ok t ∧
        generate_analysis_suggestions apiKey gen loads d1 =
          Json.obj [("error", Json.str "Failed to parse Gemini response"),
                    ("raw", Json.str t)])) ∧
    ((summarize_key_findings apiKey gen d2 =
        "Gemini API key is not configured. Please add your API key.") ∨
      (∃ t, gen (summary_prompt d2) = Except.ok t ∧
        summarize_key_findings apiKey gen d2 = t) ∨
      (∃ e, gen (summary_prompt d2) = Except.error e ∧
        summarize_key_findings apiKey gen d2 =
          "Error generating summary: " ++ e)) := by
  by_cases hk : apiKey = ""
  · subst hk
    refine ⟨Or.inl rfl, Or.inl rfl, Or.inl rfl⟩
  · refine ⟨?_, ?_, ?_⟩
    · rcases hg : gen (history_text
          (chat_history ++ [{ role := "user", content := user_message }]))
        with e | t
      · refine Or.inr (Or.inr ⟨e, hg, ?_⟩)
        unfold chat_with_assistant
        rw [if_neg hk]
        simp only [hg]
      · refine Or.inr (Or.inl ⟨t, hg, ?_⟩)
        unfold chat_with_assistant
        rw [if_neg hk]
        simp only [hg]
    · rcases hg : gen (suggestion_prompt d1) with e | t
      · refine Or.inl ?_
        unfold generate_analysis_suggestions
        rw [if_neg hk]
        simp only [hg]
      · rcases hl : loads t with perr | j
        · refine Or.inr (Or.inr ⟨t, rfl, ?_⟩)
          unfold generate_analysis_suggestions
          rw [if_neg hk]
          simp only [hg, hl]
        · refine Or.inr (Or.inl ⟨t, j, rfl, hl, ?_⟩)
          unfold generate_analysis_suggestions
          rw [if_neg hk]
          simp only [hg, hl]
    · rcases hg : gen (summary_prompt d2) with e | t
      · refine Or.inr (Or.inr ⟨e, rfl, ?_⟩)
        unfold summarize_key_findings
        rw [if_neg hk]
        simp only [hg]
      · refine Or.inr (Or.inl ⟨t, rfl, ?_⟩)
        unfold summarize_key_findings
        rw [if_neg hk]
        simp only [hg]

/-- C6: with no credential configured, `generate_analysis_suggestions`
returns exactly the static fallback object, whose `suggested_questions`
array has four entries and whose `research_directions` array has three, and
`summarize_key_findings` returns exactly the fixed explanatory string. -/
theorem C6_no_key_static_results (gen gen2 : String → Except String String)
    (loads : String → Except String Json) (d1 d2 : Json) :
    generate_analysis_suggestions "" gen loads d1 = fallback_suggestions ∧
    (∃ qs ds, fallback_suggestions =
        Json.obj [("suggested_questions", Json.arr qs),
                  ("research_directions", Json.arr ds)] ∧
      qs.length = 4 ∧ ds.length = 3) ∧
    summarize_key_findings "" gen2 d2 =
      "Gemini API key is not configured. Please add your API key." := by
  exact ⟨rfl, ⟨_, _, rfl, rfl, rfl⟩, rfl⟩

/-- C7: with no credential configured, none of the three functions consults
the remote oracle (or the parser): any two runs, even with different
oracles, return the identical result, so the fallback behavior is
deterministic and attempts no remote call. -/
theorem C7_no_key_oracle_independent
    (gen gen' : String → Except String String)
    (loads loads' : String → Except String Json)
    (chat_history : List Msg) (user_message : String) (d1 d2 : Json) :
    chat_with_assistant "" gen chat_history user_message =
      chat_with_assistant "" gen' chat_history user_message ∧
    generate_analysis_suggestions "" gen loads d1 =
      generate_analysis_suggestions "" gen' loads' d1 ∧
    summarize_key_findings "" gen d2 = summarize_key_findings "" gen' d2 := by
  exact ⟨rfl, rfl, rfl⟩

/-- C8: with a credential configured, the single text prompt that
`chat_with_assistant` hands to the remote oracle is the newline-join, over
the whole history including the just-appended user message, of
`Role: content` with the role's first letter capitalized.  The oracle here
echoes its prompt, so the response exposes exactly what was sent. -/
theorem C8_prompt_is_capitalized_join (apiKey : String)
    (chat_history : List Msg) (user_message : String)
    (hk : ¬ apiKey = "")
    (hw : ∀ m ∈ chat_history,
      m.role = "system" ∨ m.role = "user" ∨ m.role = "assistant") :
    (chat_with_assistant apiKey (fun p => Except.ok p)
        chat_history user_message).response =
      String.intercalate "\n"
        ((chat_history ++
            ([{ role := "user", content := user_message }] : List Msg)).map
          (fun m => capFirst m.role ++ ": " ++ m.content)) := by
  unfold chat_with_assistant
  rw [if_neg hk]
  show history_text
      (chat_history ++ [{ role := "user", content := user_message }]) = _
  unfold history_text
  congr 1
  apply List.map_congr_left
  intro m hm
  rcases List.mem_append.1 hm with h | h
  · rw [pyCapitalize_wf_role m.role (hw m h)]
  · simp only [List.mem_singleton] at h
    subst h
    rfl

theorem C8_witness :
    (chat_with_assistant "key" (fun p => Except.ok p)
        initialize_chat_history "What is blaKPC?").response =
      String.intercalate "\n"
        ((initialize_chat_history ++
            ([{ role := "user", content := "What is blaKPC?" }] : List Msg)).map
          (fun m => capFirst m.role ++ ": " ++ m.content)) :=
  C8_prompt_is_capitalized_join "key" initialize_chat_history
    "What is blaKPC?" (by decide) (by decide)

/-- C9: at the heap level, `add_analysis_context` does not mutate its input
list: the list stored at the input address is unchanged by the call, and the
result is a newly constructed list living at a previously unallocated
address whose content is the functional `add_analysis_context` of the
input. -/
theorem C9_input_list_not_mutated (st : Store) (a : Nat)
    (analysis_data : Json) (ha : a < st.lists.length) :
    ((add_analysis_context_ref st a analysis_data).1.lists)[a]? =
      st.lists[a]? ∧
    (add_analysis_context_ref st a analysis_data).2 = st.lists.length ∧
    st.lists[(add_analysis_context_ref st a analysis_data).2]? = none ∧
    ((add_analysis_context_ref st a analysis_data).1.lists)[
        (add_analysis_context_ref st a analysis_data).2]? =
      some (add_analysis_context (st.lists.getD a []) analysis_data) := by
  refine ⟨?_, rfl, ?_, ?_⟩
  · exact List.getElem?_append_left ha
  · exact List.getElem?_len_le (Nat.le_refl _)
  · exact List.getElem?_concat_length _ _

theorem C9_witness :
    ((add_analysis_context_ref ⟨[[{ role := "system", content := "s" }]]⟩ 0
        Json.null).1.lists)[0]? =
      (Store.mk [[{ role := "system", content := "s" }]]).lists[0]? ∧
    (add_analysis_context_ref ⟨[[{ role := "system", content := "s" }]]⟩ 0
        Json.null).2 = 1 ∧
    (Store.mk [[{ role := "system", content := "s" }]]).lists[
        (add_analysis_context_ref ⟨[[{ role := "system", content := "s" }]]⟩ 0
          Json.null).2]? = none ∧
    ((add_analysis_context_ref ⟨[[{ role := "system", content := "s" }]]⟩ 0
        Json.null).1.lists)[
        (add_analysis_context_ref ⟨[[{ role := "system", content := "s" }]]⟩ 0
          Json.null).2]? =
      some (add_analysis_context
        ((Store.mk [[{ role := "system", content := "s" }]]).lists.getD 0 [])
        Json.null) :=
  C9_input_list_not_mutated ⟨[[{ role := "system", content := "s" }]]⟩ 0
    Json.null (by decide)

/-- C10: with a credential configured, when the remote reply parses as JSON,
`generate_analysis_suggestions` returns the parsed value verbatim, with no
validation of its shape: any JSON value, object or not, is returned as the
result. -/
theorem C10_parsed_json_returned_verbatim (apiKey : String)
    (gen : String → Except String String)
    (loads : String → Except String Json) (analysis_data : Json)
    (text : String) (j : Json)
    (hk : ¬ apiKey = "")
    (hg : gen (suggestion_prompt analysis_data) = Except.ok text)
    (hl : loads text = Except.ok j) :
    generate_analysis_suggestions apiKey gen loads analysis_data = j := by
  unfold generate_analysis_suggestions
  rw [if_neg hk]
  simp only [hg, hl]

theorem C10_witness :
    generate_analysis_suggestions "key" (fun _ => Except.ok "[]")
        (fun _ => Except.ok (Json.arr [])) Json.null = Json.arr [] :=
  C10_parsed_json_returned_verbatim "key" (fun _ => Except.ok "[]")
    (fun _ => Except.ok (Json.arr [])) Json.null "[]" (Json.arr [])
    (by decide) rfl rfl
